import Mathlib

/-!
Verification of the recipe format-adaptation and search subsystem of the
chef-virtual-michelle repository, as implemented in `database_supabase.py`.

Python strings are modelled as lists of characters (`PyStr`); Python's
dynamically typed record values are modelled by the inductive `Val`
(strings, numbers, `None`, lists and dicts of scalars — the only shapes
this program stores in a record field); a Python dict is an association
list keyed by field name.  Functions keep the names of the Python
functions they embed.
-/

namespace Receitas

/-- A Python string, as a list of characters. -/
abbrev PyStr := List Char

/-- Embed a Lean string literal as a `PyStr`. -/
def pys (s : String) : PyStr := s.data

/-- A scalar Python value, as stored inside a list- or dict-valued record
field of this program (the program never nests deeper than one level). -/
inductive Scalar where
  | s (v : PyStr)
  | num (n : Int)
  | none
deriving DecidableEq

/-- A Python value held in a record field: string, number, `None`, a list
of scalars, or a dict of scalars.  Python `0.0` literals are modelled by
`num 0`. -/
inductive Val where
  | vstr (s : PyStr)
  | vnum (n : Int)
  | vnone
  | vlist (xs : List Scalar)
  | vdict (kvs : List (String × Scalar))
deriving DecidableEq

/-- A Python dict record: field name to value, first occurrence wins. -/
abbrev PyDict := List (String × Val)

/-- Python `d.get(k, dflt)`. -/
def getD (d : PyDict) (k : String) (dflt : Val) : Val :=
  match d.find? (fun kv => kv.1 == k) with
  | some kv => kv.2
  | none => dflt

/-- Python `d[k]` presence probe: the value stored under `k`, if any. -/
def lookupVal (d : PyDict) (k : String) : Option Val :=
  (d.find? (fun kv => kv.1 == k)).map (fun kv => kv.2)

/-- Python truthiness test (`if not x`) on a record value. -/
def isFalsy : Val → Bool
  | .vstr s => s.isEmpty
  | .vnum n => n == 0
  | .vnone => true
  | .vlist xs => xs.isEmpty
  | .vdict kvs => kvs.isEmpty

/-- Is the value a Python dict? (`isinstance(x, dict)`). -/
def isDictB : Val → Bool
  | .vdict _ => true
  | _ => false

/-- Is the value a Python list? (`isinstance(x, list)`). -/
def isListB : Val → Bool
  | .vlist _ => true
  | _ => false

/-- Python `str(x)`.  The record fields the claims exercise hold strings;
the textual rendering Python would give a structured value is never
inspected by the program, so it is modelled by an opaque marker. -/
def pyStr : Val → PyStr
  | .vstr s => s
  | .vnum n => pys (toString n)
  | .vnone => pys "None"
  | .vlist _ => pys "<list>"
  | .vdict _ => pys "<dict>"

/-- Python `s.strip()`: drop whitespace from both ends.  (Core
`Char.isWhitespace` covers the ASCII whitespace this program meets.) -/
def pyStrip (cs : PyStr) : PyStr :=
  ((cs.dropWhile Char.isWhitespace).reverse.dropWhile Char.isWhitespace).reverse

/-- Python `s.upper()` (ASCII fragment, as in core `Char.toUpper`). -/
def pyUpper (cs : PyStr) : PyStr := cs.map Char.toUpper

/-- Python `s.lower()` (ASCII fragment, as in core `Char.toLower`). -/
def pyLower (cs : PyStr) : PyStr := cs.map Char.toLower

/-- Python `s.split('\n')`: split at every newline, keeping empty pieces;
`''.split('\n') == ['']`. -/
def splitNl : PyStr → List PyStr
  | [] => [[]]
  | c :: cs =>
    if c = '\n' then [] :: splitNl cs
    else
      match splitNl cs with
      | [] => [[c]]
      | w :: ws => (c :: w) :: ws

/-- Python `'\n'.join(ws)`. -/
def joinNl : List PyStr → PyStr
  | [] => []
  | [w] => w
  | w :: ws => w ++ '\n' :: joinNl ws

/-- Python `' '.join(ws)`. -/
def joinSpace : List PyStr → PyStr
  | [] => []
  | [w] => w
  | w :: ws => w ++ ' ' :: joinSpace ws

/-- Worker for `dedupFirst`: keep elements not yet seen. -/
def dedupFirstAux {α : Type} [DecidableEq α] (seen : List α) : List α → List α
  | [] => []
  | x :: xs =>
    if x ∈ seen then dedupFirstAux seen xs
    else x :: dedupFirstAux (x :: seen) xs

/-- Python `list(dict.fromkeys(xs))`: deduplicate keeping first-seen
order. -/
def dedupFirst {α : Type} [DecidableEq α] (l : List α) : List α :=
  dedupFirstAux [] l

/-- Python no-argument `s.split()`: split on whitespace runs, dropping
empty pieces; the accumulator holds the current word reversed. -/
def splitWsGo : PyStr → PyStr → List PyStr
  | [], acc => if acc = [] then [] else [acc.reverse]
  | c :: cs, acc =>
    if Char.isWhitespace c then
      (if acc = [] then [] else [acc.reverse]) ++ splitWsGo cs []
    else splitWsGo cs (c :: acc)

/-- Python no-argument `s.split()`. -/
def pySplitWhite (cs : PyStr) : List PyStr := splitWsGo cs []

/-- Does `needle` occur as a contiguous substring of `hay`? -/
def isSubstrOf : PyStr → PyStr → Bool
  | needle, [] => needle.isEmpty
  | needle, c :: t => needle.isPrefixOf (c :: t) || isSubstrOf needle t

/-- SQL `field ILIKE '%pattern%'` as supabase/PostgREST exposes it:
case-insensitive substring match. -/
def ilike (field pattern : PyStr) : Bool :=
  isSubstrOf (pyLower pattern) (pyLower field)

/-- `normalize_text` from database_supabase.py: empty stays empty,
otherwise trim then lower-case. -/
def normalize_text (text : PyStr) : PyStr :=
  if text = [] then [] else pyLower (pyStrip text)

/-- The stop-word set of `clean_search_query` (a Python `set` of string
literals; the two-word entry can never match a single token, exactly as
in the source). -/
def stop_words : List PyStr :=
  [pys "o", pys "que", pys "os", pys "as", pys "um", pys "uns", pys "uma",
   pys "umas", pys "com", pys "para", pys "por", pys "em", pys "no",
   pys "na", pys "nos", pys "nas", pys "do", pys "da", pys "dos",
   pys "das", pys "posso", pys "pode", pys "fazer", pys "como",
   pys "onde", pys "quando", pys "qual", pys "quais", pys "aonde",
   pys "porque", pys "por que", pys "usar", pys "uso", pys "de", pys "e",
   pys "ou", pys "mas", pys "porem", pys "entao", pys "assim", pys "pois"]

/-- The punctuation-removal step of `clean_search_query`:
`''.join(c for c in query if c.isalnum() or c.isspace())`. -/
def stripPunct (cs : PyStr) : PyStr :=
  cs.filter (fun c => c.isAlphanum || c.isWhitespace)

/-- `clean_search_query` from database_supabase.py. -/
def clean_search_query (query : PyStr) : PyStr :=
  let query := stripPunct query
  let words := pySplitWhite (normalize_text query)
  let cleaned_words := words.filter (fun w => ¬ stop_words.contains w)
  if cleaned_words = [] then normalize_text query
  else joinSpace cleaned_words

/-- The line pipeline shared by the adapter's list fields: split on
newline, trim each line, drop empties, deduplicate keeping order. -/
def split_trim_dedup (raw : PyStr) : List PyStr :=
  dedupFirst (((splitNl raw).map pyStrip).filter (fun w => w ≠ []))

/-- The adapter's `isinstance(raw, str)` dispatch for `ingredientes` and
`modo_preparo`: strings go through the line pipeline, anything else
becomes the empty list. -/
def list_field (v : Val) : List PyStr :=
  match v with
  | Val.vstr raw => split_trim_dedup raw
  | _ => []

/-- The chat-format dict literal returned by `to_chat_format`, with one
argument per field, in the source's key order. -/
def chat_mk (rid titulo descricao : PyStr) (ing prep : List PyStr)
    (tempo porcoes dificuldade : PyStr) (info dicas : Val) (harm : PyStr) : PyDict :=
  [("id", Val.vstr rid),
   ("titulo", Val.vstr titulo),
   ("descricao", Val.vstr descricao),
   ("ingredientes", Val.vlist (ing.map Scalar.s)),
   ("modo_preparo", Val.vlist (prep.map Scalar.s)),
   ("tempo_preparo", Val.vstr tempo),
   ("porcoes", Val.vstr porcoes),
   ("dificuldade", Val.vstr dificuldade),
   ("informacoes_nutricionais", info),
   ("dicas", dicas),
   ("harmonizacao", Val.vstr harm)]

/-- `ReceitaAdapter.to_chat_format`: storage shape to domain shape.
Returns `none` when the trimmed id is empty; nothing in the body can
raise, so the `except` branch of the source is unreachable. -/
def to_chat_format (receita_db : PyDict) : Option PyDict :=
  let receita_id := pyStrip (pyStr (getD receita_db "id" (Val.vstr [])))
  if receita_id = [] then none
  else
    let ingredientes := list_field (getD receita_db "ingredientes" (Val.vstr []))
    let preparo := list_field (getD receita_db "modo_preparo" (Val.vstr []))
    some (chat_mk receita_id
      (pyUpper (pyStrip (pyStr (getD receita_db "titulo" (Val.vstr [])))))
      (pyStrip (pyStr (getD receita_db "descricao" (Val.vstr []))))
      ingredientes
      preparo
      (pyStrip (pyStr (getD receita_db "tempo_preparo" (Val.vstr []))))
      (pyStrip (pyStr (getD receita_db "porcoes" (Val.vstr []))))
      (pyStrip (pyStr (getD receita_db "dificuldade" (Val.vstr []))))
      (getD receita_db "informacoes_nutricionais" (Val.vdict []))
      (getD receita_db "dicas" (Val.vlist []))
      (pyStrip (pyStr (getD receita_db "harmonizacao" (Val.vstr [])))))

/-- The zero-filled nutrition dict `to_db_format` substitutes when the
field is not a dict (Python float zeros modelled as integer zeros). -/
def info_nutri_default : List (String × Scalar) :=
  [("calorias", Scalar.num 0), ("proteinas", Scalar.num 0),
   ("carboidratos", Scalar.num 0), ("gorduras", Scalar.num 0),
   ("fibras", Scalar.num 0)]

/-- Python `'\n'.join(xs)` on a list of record scalars: `none` models the
`TypeError` raised when an element is not a string. -/
def join_strs (xs : List Scalar) : Option PyStr :=
  (xs.mapM (fun v => match v with | Scalar.s w => some w | _ => Option.none)).map joinNl

/-- The storage-format dict literal returned by `to_db_format`, with one
argument per field, in the source's key order — note: no `id` key. -/
def db_mk (titulo descricao ing prep tempo porcoes dificuldade utensilios harm : PyStr)
    (info beneficios dicas : Val) : PyDict :=
  [("titulo", Val.vstr titulo),
   ("descricao", Val.vstr descricao),
   ("ingredientes", Val.vstr ing),
   ("modo_preparo", Val.vstr prep),
   ("tempo_preparo", Val.vstr tempo),
   ("porcoes", Val.vstr porcoes),
   ("dificuldade", Val.vstr dificuldade),
   ("utensilios", Val.vstr utensilios),
   ("harmonizacao", Val.vstr harm),
   ("informacoes_nutricionais", info),
   ("beneficios_funcionais", beneficios),
   ("dicas", dicas)]

/-- `ReceitaAdapter.to_db_format`: domain shape to storage shape.  A
`TypeError` from joining a non-string list lands in the `except` branch,
which returns the empty dict; no `id` field is ever emitted. -/
def to_db_format (receita_chat : PyDict) : PyDict :=
  let ing? : Option PyStr :=
    match getD receita_chat "ingredientes" Val.vnone with
    | Val.vlist xs => join_strs xs
    | _ => some (pyStr (getD receita_chat "ingredientes" (Val.vstr [])))
  let prep? : Option PyStr :=
    match getD receita_chat "modo_preparo" Val.vnone with
    | Val.vlist xs => join_strs xs
    | _ => some (pyStr (getD receita_chat "modo_preparo" (Val.vstr [])))
  match ing?, prep? with
  | some ingredientes, some modo_preparo =>
    let info_nutri :=
      match getD receita_chat "informacoes_nutricionais" (Val.vdict []) with
      | Val.vdict kvs => Val.vdict kvs
      | _ => Val.vdict info_nutri_default
    let beneficios :=
      match getD receita_chat "beneficios_funcionais" (Val.vlist []) with
      | Val.vlist xs => Val.vlist xs
      | _ => Val.vlist []
    let dicas :=
      match getD receita_chat "dicas" (Val.vlist []) with
      | Val.vlist xs => Val.vlist xs
      | _ => Val.vlist []
    db_mk (pyUpper (pyStrip (pyStr (getD receita_chat "titulo" (Val.vstr [])))))
      (pyStrip (pyStr (getD receita_chat "descricao" (Val.vstr []))))
      (pyStrip ingredientes)
      (pyStrip modo_preparo)
      (pyStrip (pyStr (getD receita_chat "tempo_preparo" (Val.vstr []))))
      (pyStrip (pyStr (getD receita_chat "porcoes" (Val.vstr []))))
      (pyStrip (pyStr (getD receita_chat "dificuldade" (Val.vstr []))))
      (pyStrip (pyStr (getD receita_chat "utensilios" (Val.vstr []))))
      (pyStrip (pyStr (getD receita_chat "harmonizacao" (Val.vstr []))))
      info_nutri beneficios dicas
  | _, _ => []

/-- `ReceitasDB._criar_resumo_receita`: the summary preview (debug
writes omitted; nothing in the body can raise). -/
def criar_resumo_receita (receita : PyDict) : Option PyDict :=
  let receita_id := getD receita "id" Val.vnone
  if isFalsy receita_id then Option.none
  else
    let rid := pyStrip (pyStr receita_id)
    let titulo := pyUpper (pyStrip (pyStr (getD receita "titulo" (Val.vstr []))))
    if titulo = [] then Option.none
    else
      let ingredientes : List PyStr :=
        match getD receita "ingredientes" (Val.vstr []) with
        | Val.vstr raw =>
          let base := ((((splitNl raw).map pyStrip).filter (fun w => w ≠ [])).take 3)
          if 3 < (splitNl raw).length then base ++ [pys "..."] else base
        | _ => []
      some [("id", Val.vstr rid),
            ("titulo", Val.vstr titulo),
            ("descricao", Val.vstr (pyStrip (pyStr (getD receita "descricao" (Val.vstr []))))),
            ("preview_ingredientes", Val.vlist (ingredientes.map Scalar.s))]

/-! ## The store collaborator, search, retry and cache -/

/-- The supabase store as seen by the search code: a `select('*')` of the
whole table and a `select('*').ilike(field, pattern)`, either of which
may raise (network failure), modelled by `Except`. -/
structure Store where
  selectAll : Except String (List PyDict)
  selectIlike : String → PyStr → Except String (List PyDict)

/-- An honest store over an in-memory catalog: `ilike(field, '%q%')`
filters by case-insensitive substring on the field (absent column reads
as the empty string, which a non-empty pattern never matches — as with
SQL `NULL`). -/
def catalogStore (catalog : List PyDict) : Store where
  selectAll := Except.ok catalog
  selectIlike := fun field pat =>
    Except.ok (catalog.filter (fun r => ilike (pyStr (getD r field (Val.vstr []))) pat))

/-- A store whose every round-trip raises. -/
def failingStore : Store where
  selectAll := Except.error "connection refused"
  selectIlike := fun _ _ => Except.error "connection refused"

/-- The body of `ReceitasDB.buscar_receitas` (one attempt): empty query
selects everything, otherwise a case-insensitive partial title match on
the trimmed upper-cased query; rows are converted and `None`s dropped;
the catch-all `except` turns any store error into `[]`. -/
def buscar_receitas_attempt (store : Store) (query : PyStr) : List PyDict :=
  let fetched :=
    if query = [] then store.selectAll
    else store.selectIlike "titulo" (pyUpper (pyStrip query))
  match fetched with
  | Except.ok rows => (rows.filter (fun r => r ≠ [])).filterMap to_chat_format
  | Except.error _ => []

/-- The tenacity retry loop: run attempt number `attempt`, retry on a
raised exception while fuel remains, surface the last outcome.  Returns
the number of attempts actually made together with the outcome. -/
def tenacityGo {α : Type} (f : Nat → Except String α) : Nat → Nat → Nat × Except String α
  | attempt, 0 => (attempt, f attempt)
  | attempt, fuel + 1 =>
    match f attempt with
    | Except.ok a => (attempt, Except.ok a)
    | Except.error _ => tenacityGo f (attempt + 1) fuel

/-- `@retry(stop=stop_after_attempt(n), wait=wait_exponential(...))`: up
to `n` attempts, re-invoking only when the wrapped call raises (the
backoff sleeps do not affect the outcome and are not modelled). -/
def tenacity_retry {α : Type} (stopAfter : Nat) (f : Nat → Except String α) :
    Nat × Except String α :=
  tenacityGo f 1 (stopAfter - 1)

/-- `ReceitasDB.buscar_receitas` as decorated: the body's catch-all
`except` means the wrapped call never raises, so it is wrapped in
`Except.ok`; result is (attempts made, returned list). -/
def buscar_receitas (store : Store) (query : PyStr) : Nat × List PyDict :=
  match tenacity_retry 3 (fun _ => Except.ok (buscar_receitas_attempt store query)) with
  | (n, Except.ok r) => (n, r)
  | (n, Except.error _) => (n, [])

/-- `ReceitasDB.buscar_receitas_por_texto`: empty query returns `[]`;
otherwise clean the query, try a title ilike, fall back to an
ingredient ilike only when the title lookup returned no rows, convert
survivors; any store error is caught and returns `[]`. -/
def buscar_receitas_por_texto (store : Store) (query : PyStr) : List PyDict :=
  if query = [] then []
  else
    let q := clean_search_query query
    match store.selectIlike "titulo" q with
    | Except.error _ => []
    | Except.ok rows =>
      match (if rows = [] then store.selectIlike "ingredientes" q else Except.ok rows) with
      | Except.error _ => []
      | Except.ok rows => (rows.filter (fun r => r ≠ [])).filterMap to_chat_format

/-- One entry of the `st.cache_data` memo table. -/
structure CacheEntry (α : Type) where
  key : PyStr
  insertedAt : Nat
  value : α

/-- The `st.cache_data` memo table for one cached function. -/
abbrev Cache (α : Type) := List (CacheEntry α)

/-- Look up a cache entry for `q`: present and younger than `ttl`
seconds. -/
def cache_get {α : Type} (ttl now : Nat) (q : PyStr) (st : Cache α) : Option α :=
  match st.find? (fun e => e.key == q) with
  | some e => if now - e.insertedAt < ttl then some e.value else Option.none
  | Option.none => Option.none

/-- `@st.cache_data(ttl=3600)` applied to
`buscar_receitas_cached(query)`: streamlit memoizes on the raw argument
value.  Returns (result, new cache state, whether the underlying search
ran). -/
def buscar_receitas_cached {α : Type} (compute : PyStr → α) (now : Nat) (query : PyStr)
    (st : Cache α) : α × Cache α × Bool :=
  match cache_get 3600 now query st with
  | some v => (v, st, false)
  | Option.none =>
    let v := compute query
    (v, ⟨query, now, v⟩ :: st, true)

/-! ## Character-level facts about upper-casing and whitespace -/

theorem char_toNat_inj {c d : Char} (h : c.toNat = d.toNat) : c = d :=
  Char.ext (UInt32.ext h)

theorem char_eq_iff_toNat {c d : Char} : c = d ↔ c.toNat = d.toNat :=
  ⟨fun h => h ▸ rfl, char_toNat_inj⟩

theorem toNat_ofNat_valid {n : Nat} (h : n < 55296) : (Char.ofNat n).toNat = n := by
  rw [Char.ofNat, dif_pos (Or.inl h : n.isValidChar)]
  rfl

theorem toUpper_eq_ite (c : Char) :
    Char.toUpper c =
      if 97 ≤ c.toNat ∧ c.toNat ≤ 122 then Char.ofNat (c.toNat - 32) else c := rfl

theorem toNat_toUpper (c : Char) :
    (Char.toUpper c).toNat = if 97 ≤ c.toNat ∧ c.toNat ≤ 122 then c.toNat - 32 else c.toNat := by
  by_cases h : 97 ≤ c.toNat ∧ c.toNat ≤ 122
  · rw [toUpper_eq_ite, if_pos h, if_pos h]
    exact toNat_ofNat_valid (by omega)
  · rw [toUpper_eq_ite, if_neg h, if_neg h]

theorem toUpper_of_not_lower {c : Char} (h : ¬(97 ≤ c.toNat ∧ c.toNat ≤ 122)) :
    Char.toUpper c = c := by
  rw [toUpper_eq_ite, if_neg h]

theorem toUpper_toUpper (c : Char) : Char.toUpper (Char.toUpper c) = Char.toUpper c := by
  by_cases h : 97 ≤ c.toNat ∧ c.toNat ≤ 122
  · refine toUpper_of_not_lower ?_
    rw [toNat_toUpper, if_pos h]
    omega
  · simp only [toUpper_of_not_lower h]

theorem isWhitespace_toNat (c : Char) :
    c.isWhitespace =
      (decide (c.toNat = 32) || decide (c.toNat = 9) || decide (c.toNat = 13) ||
        decide (c.toNat = 10)) := by
  unfold Char.isWhitespace
  have e1 : (c = ' ') = (c.toNat = 32) := propext char_eq_iff_toNat
  have e2 : (c = '\t') = (c.toNat = 9) := propext char_eq_iff_toNat
  have e3 : (c = '\r') = (c.toNat = 13) := propext char_eq_iff_toNat
  have e4 : (c = '\n') = (c.toNat = 10) := propext char_eq_iff_toNat
  simp only [e1, e2, e3, e4]

theorem isWhitespace_toUpper (c : Char) :
    (Char.toUpper c).isWhitespace = c.isWhitespace := by
  by_cases h : 97 ≤ c.toNat ∧ c.toNat ≤ 122
  · rw [isWhitespace_toNat, isWhitespace_toNat, toNat_toUpper, if_pos h]
    have h1 : ¬(c.toNat - 32 = 32) := by omega
    have h2 : ¬(c.toNat - 32 = 9) := by omega
    have h3 : ¬(c.toNat - 32 = 13) := by omega
    have h4 : ¬(c.toNat - 32 = 10) := by omega
    have g1 : ¬(c.toNat = 32) := by omega
    have g2 : ¬(c.toNat = 9) := by omega
    have g3 : ¬(c.toNat = 13) := by omega
    have g4 : ¬(c.toNat = 10) := by omega
    simp [h1, h2, h3, h4, g1, g2, g3, g4]
  · rw [toUpper_of_not_lower h]

theorem newline_not_toNat {c : Char} (h : c.toNat ≠ 10) : c ≠ '\n' := by
  intro e
  exact h (e ▸ rfl)

/-! ## Facts about `pyStrip`, `pyUpper` and their interaction -/

/-- A string neither starting nor ending in whitespace (the shape
`pyStrip` produces). -/
def NoEdgeWs (w : PyStr) : Prop :=
  (∀ c, w.head? = some c → c.isWhitespace = false) ∧
  (∀ c, w.reverse.head? = some c → c.isWhitespace = false)

theorem dropWhile_head_not {α : Type} (p : α → Bool) (l : List α) :
    ∀ c, (l.dropWhile p).head? = some c → p c = false := by
  intro c hc
  have h := List.head?_dropWhile_not p l
  rw [hc] at h
  exact h

theorem dropWhile_eq_self_of_head {α : Type} {p : α → Bool} {l : List α}
    (h : ∀ c, l.head? = some c → p c = false) : l.dropWhile p = l := by
  cases l with
  | nil => rfl
  | cons a t =>
    have ha : p a = false := h a rfl
    simp [List.dropWhile_cons, ha]

theorem pyStrip_noEdgeWs (w : PyStr) : NoEdgeWs (pyStrip w) := by
  constructor
  · intro c hc
    unfold pyStrip at hc
    obtain ⟨t, ht⟩ :=
      (List.dropWhile_suffix Char.isWhitespace :
        _ <:+ (w.dropWhile Char.isWhitespace).reverse)
    have hrev : ((w.dropWhile Char.isWhitespace).reverse.dropWhile Char.isWhitespace).reverse ++
        t.reverse = w.dropWhile Char.isWhitespace := by
      have := congrArg List.reverse ht
      simpa [List.reverse_append] using this
    have hh : (w.dropWhile Char.isWhitespace).head? = some c := by
      rw [← hrev, List.head?_append, hc]
      rfl
    exact dropWhile_head_not _ _ c hh
  · intro c hc
    unfold pyStrip at hc
    rw [List.reverse_reverse] at hc
    exact dropWhile_head_not _ _ c hc

theorem noEdgeWs_pyStrip_eq {w : PyStr} (h : NoEdgeWs w) : pyStrip w = w := by
  unfold pyStrip
  rw [dropWhile_eq_self_of_head h.1, dropWhile_eq_self_of_head h.2, List.reverse_reverse]

theorem pyStrip_idem (w : PyStr) : pyStrip (pyStrip w) = pyStrip w :=
  noEdgeWs_pyStrip_eq (pyStrip_noEdgeWs w)

theorem mem_pyStrip {c : Char} {w : PyStr} (h : c ∈ pyStrip w) : c ∈ w := by
  unfold pyStrip at h
  rw [List.mem_reverse] at h
  have h1 := ((List.dropWhile_sublist Char.isWhitespace :
    List.Sublist _ ((w.dropWhile Char.isWhitespace).reverse))).mem h
  rw [List.mem_reverse] at h1
  exact (List.dropWhile_sublist Char.isWhitespace).mem h1

theorem pyStrip_pyUpper (w : PyStr) : pyStrip (pyUpper w) = pyUpper (pyStrip w) := by
  unfold pyStrip pyUpper
  have hfun : (Char.isWhitespace ∘ Char.toUpper) = Char.isWhitespace := by
    funext c
    exact isWhitespace_toUpper c
  rw [List.dropWhile_map, hfun, ← List.map_reverse, List.dropWhile_map, hfun,
    ← List.map_reverse]

theorem pyUpper_idem (w : PyStr) : pyUpper (pyUpper w) = pyUpper w := by
  unfold pyUpper
  rw [List.map_map]
  exact List.map_congr_left (fun c _ => toUpper_toUpper c)

/-- The title normalization `strip-then-upper` is a projection: applying
it to its own output changes nothing. -/
theorem pyUpper_pyStrip_fix (s : PyStr) :
    pyUpper (pyStrip (pyUpper (pyStrip s))) = pyUpper (pyStrip s) := by
  rw [pyStrip_pyUpper, pyStrip_idem, pyUpper_idem]

/-! ## Facts about `splitNl`, `joinNl` and `dedupFirst` -/

theorem splitNl_ne_nil (cs : PyStr) : splitNl cs ≠ [] := by
  cases cs with
  | nil => simp [splitNl]
  | cons c cs =>
    unfold splitNl
    by_cases h : c = '\n'
    · simp [h]
    · rw [if_neg h]
      cases splitNl cs <;> simp

theorem splitNl_append {w cs : PyStr} {hd : PyStr} {tl : List PyStr}
    (hcs : splitNl cs = hd :: tl) (hw : '\n' ∉ w) :
    splitNl (w ++ cs) = (w ++ hd) :: tl := by
  induction w with
  | nil => simpa using hcs
  | cons c w ih =>
    have hc : c ≠ '\n' := fun e => hw (e ▸ List.mem_cons_self c w)
    have hw' : '\n' ∉ w := fun m => hw (List.mem_cons_of_mem c m)
    have ihw := ih hw'
    show splitNl (c :: (w ++ cs)) = ((c :: w) ++ hd) :: tl
    unfold splitNl
    rw [if_neg hc, ihw]
    rfl

theorem splitNl_no_nl {w : PyStr} {cs : PyStr} (h : w ∈ splitNl cs) : '\n' ∉ w := by
  induction cs generalizing w with
  | nil =>
    simp [splitNl] at h
    simp [h]
  | cons c cs ih =>
    unfold splitNl at h
    by_cases hc : c = '\n'
    · rw [if_pos hc] at h
      rcases List.mem_cons.mp h with he | hm
      · simp [he]
      · exact ih hm
    · rw [if_neg hc] at h
      rcases hsp : splitNl cs with _ | ⟨hd, tl⟩
      · exact absurd hsp (splitNl_ne_nil cs)
      · rw [hsp] at h
        rcases List.mem_cons.mp h with he | hm
        · subst he
          intro hmem
          rcases List.mem_cons.mp hmem with he2 | hm2
          · exact hc he2.symm
          · exact ih (hsp ▸ List.mem_cons_self hd tl) hm2
        · exact ih (hsp ▸ List.mem_cons_of_mem hd hm)

theorem splitNl_joinNl {M : List PyStr} (hne : M ≠ [])
    (hnl : ∀ w ∈ M, '\n' ∉ w) : splitNl (joinNl M) = M := by
  induction M with
  | nil => exact absurd rfl hne
  | cons w ws ih =>
    cases ws with
    | nil =>
      have h0 : splitNl ([] : PyStr) = [] :: [] := rfl
      have h1 := splitNl_append h0 (hnl w (by simp))
      rw [List.append_nil] at h1
      exact h1
    | cons w2 ws' =>
      have hih : splitNl (joinNl (w2 :: ws')) = w2 :: ws' := by
        refine ih (by simp) ?_
        intro u hu
        exact hnl u (List.mem_cons_of_mem w hu)
      have hrest : splitNl ('\n' :: joinNl (w2 :: ws')) = [] :: (w2 :: ws') := by
        have hr : splitNl ('\n' :: joinNl (w2 :: ws')) =
            [] :: splitNl (joinNl (w2 :: ws')) := rfl
        rw [hr, hih]
      have happ := splitNl_append hrest (hnl w (by simp))
      show splitNl (w ++ '\n' :: joinNl (w2 :: ws')) = w :: w2 :: ws'
      rw [happ, List.append_nil]

theorem joinNl_ne_nil {w : PyStr} {ws : List PyStr} (h : w ≠ []) : joinNl (w :: ws) ≠ [] := by
  cases ws with
  | nil => exact h
  | cons w2 ws' =>
    show w ++ '\n' :: joinNl (w2 :: ws') ≠ []
    simp

theorem joinNl_noEdgeWs {M : List PyStr} (hne : M ≠ [])
    (h : ∀ w ∈ M, w ≠ [] ∧ NoEdgeWs w) : NoEdgeWs (joinNl M) := by
  induction M with
  | nil => exact absurd rfl hne
  | cons w ws ih =>
    obtain ⟨hwne, hwedge⟩ := h w (List.mem_cons_self w ws)
    cases ws with
    | nil => exact hwedge
    | cons w2 ws' =>
      have hJ : NoEdgeWs (joinNl (w2 :: ws')) := by
        refine ih (by simp) ?_
        intro u hu
        exact h u (List.mem_cons_of_mem w hu)
      have hJne : joinNl (w2 :: ws') ≠ [] :=
        joinNl_ne_nil (h w2 (by simp)).1
      constructor
      · intro c hc
        have hshape : joinNl (w :: w2 :: ws') = w ++ '\n' :: joinNl (w2 :: ws') := rfl
        rw [hshape, List.head?_append] at hc
        cases hcw : w.head? with
        | none => exact absurd (List.head?_eq_none_iff.mp hcw) hwne
        | some c0 =>
          rw [hcw] at hc
          have : c0 = c := by simpa using hc
          exact this ▸ hwedge.1 c0 hcw
      · intro c hc
        have hshape : joinNl (w :: w2 :: ws') = w ++ '\n' :: joinNl (w2 :: ws') := rfl
        rw [hshape, List.reverse_append, List.reverse_cons, List.append_assoc,
          List.head?_append] at hc
        cases hcJ : (joinNl (w2 :: ws')).reverse.head? with
        | none =>
          have : (joinNl (w2 :: ws')).reverse = [] := List.head?_eq_none_iff.mp hcJ
          exact absurd (by simpa using this) hJne
        | some c0 =>
          rw [hcJ] at hc
          have : c0 = c := by simpa using hc
          exact this ▸ hJ.2 c0 hcJ

theorem mem_dedupFirstAux {α : Type} [DecidableEq α] {y : α} {seen l : List α}
    (h : y ∈ dedupFirstAux seen l) : y ∈ l ∧ y ∉ seen := by
  induction l generalizing seen with
  | nil => simp [dedupFirstAux] at h
  | cons x xs ih =>
    rw [dedupFirstAux] at h
    by_cases hx : x ∈ seen
    · rw [if_pos hx] at h
      obtain ⟨h1, h2⟩ := ih h
      exact ⟨List.mem_cons_of_mem x h1, h2⟩
    · rw [if_neg hx] at h
      rcases List.mem_cons.mp h with he | hm
      · exact ⟨he ▸ List.mem_cons_self x xs, he ▸ hx⟩
      · obtain ⟨h1, h2⟩ := ih hm
        refine ⟨List.mem_cons_of_mem x h1, ?_⟩
        intro hs
        exact h2 (List.mem_cons_of_mem x hs)

theorem mem_dedupFirst {α : Type} [DecidableEq α] {y : α} {l : List α}
    (h : y ∈ dedupFirst l) : y ∈ l :=
  (mem_dedupFirstAux h).1

theorem nodup_dedupFirstAux {α : Type} [DecidableEq α] (seen l : List α) :
    (dedupFirstAux seen l).Nodup := by
  induction l generalizing seen with
  | nil => simp [dedupFirstAux]
  | cons x xs ih =>
    rw [dedupFirstAux]
    by_cases hx : x ∈ seen
    · rw [if_pos hx]
      exact ih seen
    · rw [if_neg hx]
      refine List.nodup_cons.mpr ⟨?_, ih (x :: seen)⟩
      intro hm
      exact (mem_dedupFirstAux hm).2 (List.mem_cons_self x seen)

theorem dedupFirstAux_eq_self {α : Type} [DecidableEq α] {seen l : List α}
    (hdisj : ∀ x ∈ l, x ∉ seen) (hnd : l.Nodup) : dedupFirstAux seen l = l := by
  induction l generalizing seen with
  | nil => rfl
  | cons x xs ih =>
    rw [dedupFirstAux, if_neg (hdisj x (List.mem_cons_self x xs))]
    obtain ⟨hx, hxs⟩ := List.nodup_cons.mp hnd
    congr 1
    refine ih ?_ hxs
    intro y hy
    intro hs
    rcases List.mem_cons.mp hs with he | hm
    · exact hx (he ▸ hy)
    · exact hdisj y (List.mem_cons_of_mem x hy) hm

theorem dedupFirst_idem {α : Type} [DecidableEq α] (l : List α) :
    dedupFirst (dedupFirst l) = dedupFirst l :=
  dedupFirstAux_eq_self (fun _ _ h => (List.mem_nil_iff _).mp h) (nodup_dedupFirstAux [] l)

/-! ## The split-trim-dedup pipeline is idempotent under join -/

theorem split_trim_dedup_props {raw : PyStr} {w : PyStr}
    (h : w ∈ split_trim_dedup raw) : w ≠ [] ∧ '\n' ∉ w ∧ NoEdgeWs w := by
  unfold split_trim_dedup at h
  have hf := mem_dedupFirst h
  obtain ⟨hmem, hne⟩ := List.mem_filter.mp hf
  obtain ⟨v, hv, hw⟩ := List.mem_map.mp hmem
  subst hw
  refine ⟨by simpa using hne, ?_, pyStrip_noEdgeWs v⟩
  intro hnl
  exact splitNl_no_nl hv (mem_pyStrip hnl)

theorem pipeline_roundtrip {M : List PyStr}
    (hprops : ∀ w ∈ M, w ≠ [] ∧ '\n' ∉ w ∧ NoEdgeWs w)
    (hfix : dedupFirst M = M) :
    split_trim_dedup (pyStrip (joinNl M)) = M := by
  cases M with
  | nil => rfl
  | cons w ws =>
    have hne : (w :: ws : List PyStr) ≠ [] := by simp
    have hstrip : pyStrip (joinNl (w :: ws)) = joinNl (w :: ws) :=
      noEdgeWs_pyStrip_eq (joinNl_noEdgeWs hne
        (fun u hu => ⟨(hprops u hu).1, (hprops u hu).2.2⟩))
    have hsplit : splitNl (joinNl (w :: ws)) = w :: ws :=
      splitNl_joinNl hne (fun u hu => (hprops u hu).2.1)
    unfold split_trim_dedup
    rw [hstrip, hsplit]
    have hmap : (w :: ws).map pyStrip = w :: ws := by
      have := List.map_congr_left
        (fun u (hu : u ∈ w :: ws) =>
          (noEdgeWs_pyStrip_eq (hprops u hu).2.2 : pyStrip u = id u))
      simpa using this
    rw [hmap]
    have hfilter : (w :: ws).filter (fun u => u ≠ []) = w :: ws := by
      rw [List.filter_eq_self]
      intro u hu
      simpa using (hprops u hu).1
    rw [hfilter, hfix]

/-- The full round-trip fact used by the idempotent-normalization claim:
re-splitting the stripped newline-join of a pipeline output reproduces
it. -/
theorem split_trim_dedup_joinNl (raw : PyStr) :
    split_trim_dedup (pyStrip (joinNl (split_trim_dedup raw))) = split_trim_dedup raw :=
  pipeline_roundtrip (fun _ hw => split_trim_dedup_props hw)
    (dedupFirst_idem _)

/-- Joining a list of string scalars never raises and produces the
newline join. -/
theorem join_strs_map_s (L : List PyStr) : join_strs (L.map Scalar.s) = some (joinNl L) := by
  unfold join_strs
  have h : (L.map Scalar.s).mapM
      (fun v => match v with | Scalar.s w => some w | _ => Option.none) = some L := by
    induction L with
    | nil => rfl
    | cons w ws ih =>
      rw [List.map_cons, List.mapM_cons, ih]
      rfl
  rw [h]
  rfl

/-- A list that is empty or a pipeline output survives the join-strip-
resplit round trip. -/
theorem split_trim_roundtrip_of_output {ING : List PyStr}
    (h : ING = [] ∨ ∃ raw, ING = split_trim_dedup raw) :
    split_trim_dedup (pyStrip (joinNl ING)) = ING := by
  rcases h with he | ⟨raw, hraw⟩
  · subst he
    rfl
  · subst hraw
    exact split_trim_dedup_joinNl raw

/-! ## Field extraction on the literal dict shapes -/

theorem getD_chat_mk_id (rid T D : PyStr) (ING PREP : List PyStr) (TP PO DI : PyStr)
    (INFO DICAS : Val) (HARM : PyStr) (dflt : Val) :
    getD (chat_mk rid T D ING PREP TP PO DI INFO DICAS HARM) "id" dflt = Val.vstr rid := rfl

theorem getD_chat_mk_titulo (rid T D : PyStr) (ING PREP : List PyStr) (TP PO DI : PyStr)
    (INFO DICAS : Val) (HARM : PyStr) (dflt : Val) :
    getD (chat_mk rid T D ING PREP TP PO DI INFO DICAS HARM) "titulo" dflt = Val.vstr T := rfl

theorem getD_chat_mk_ingredientes (rid T D : PyStr) (ING PREP : List PyStr) (TP PO DI : PyStr)
    (INFO DICAS : Val) (HARM : PyStr) (dflt : Val) :
    getD (chat_mk rid T D ING PREP TP PO DI INFO DICAS HARM) "ingredientes" dflt =
      Val.vlist (ING.map Scalar.s) := rfl

theorem getD_chat_mk_modo_preparo (rid T D : PyStr) (ING PREP : List PyStr) (TP PO DI : PyStr)
    (INFO DICAS : Val) (HARM : PyStr) (dflt : Val) :
    getD (chat_mk rid T D ING PREP TP PO DI INFO DICAS HARM) "modo_preparo" dflt =
      Val.vlist (PREP.map Scalar.s) := rfl

theorem getD_chat_mk_info (rid T D : PyStr) (ING PREP : List PyStr) (TP PO DI : PyStr)
    (INFO DICAS : Val) (HARM : PyStr) (dflt : Val) :
    getD (chat_mk rid T D ING PREP TP PO DI INFO DICAS HARM) "informacoes_nutricionais" dflt =
      INFO := rfl

theorem getD_chat_mk_dicas (rid T D : PyStr) (ING PREP : List PyStr) (TP PO DI : PyStr)
    (INFO DICAS : Val) (HARM : PyStr) (dflt : Val) :
    getD (chat_mk rid T D ING PREP TP PO DI INFO DICAS HARM) "dicas" dflt = DICAS := rfl

/-- `to_db_format` on an adapter output whose nutrition field is a dict
and whose tips field is a list: every scalar is re-trimmed, the lists are
newline-joined, utensils (absent from the chat shape) becomes empty, and
no id is emitted. -/
theorem to_db_format_chat_mk (rid T D : PyStr) (ING PREP : List PyStr) (TP PO DI : PyStr)
    (kvs : List (String × Scalar)) (xs : List Scalar) (HARM : PyStr) :
    to_db_format (chat_mk rid T D ING PREP TP PO DI (Val.vdict kvs) (Val.vlist xs) HARM) =
      db_mk (pyUpper (pyStrip T)) (pyStrip D) (pyStrip (joinNl ING)) (pyStrip (joinNl PREP))
        (pyStrip TP) (pyStrip PO) (pyStrip DI) [] (pyStrip HARM)
        (Val.vdict kvs) (Val.vlist []) (Val.vlist xs) := by
  unfold to_db_format
  rw [getD_chat_mk_ingredientes, getD_chat_mk_modo_preparo]
  simp only [join_strs_map_s]
  rfl

theorem getD_cons_id_db_mk_id (idv : Val) (tit desc ing prep tp po di ut harm : PyStr)
    (info ben dic : Val) (dflt : Val) :
    getD (("id", idv) :: db_mk tit desc ing prep tp po di ut harm info ben dic) "id" dflt =
      idv := rfl

/-- `to_chat_format` on a storage record rebuilt from `to_db_format`
output plus an explicit id entry. -/
theorem to_chat_format_cons_id_db_mk (rid : PyStr) (tit desc ing prep tp po di ut harm : PyStr)
    (info ben dic : Val) (hrs : pyStrip rid = rid) (hrne : rid ≠ []) :
    to_chat_format (("id", Val.vstr rid) :: db_mk tit desc ing prep tp po di ut harm info ben dic) =
      some (chat_mk rid (pyUpper (pyStrip tit)) (pyStrip desc) (split_trim_dedup ing)
        (split_trim_dedup prep) (pyStrip tp) (pyStrip po) (pyStrip di) info dic (pyStrip harm)) := by
  unfold to_chat_format
  have hid : getD (("id", Val.vstr rid) :: db_mk tit desc ing prep tp po di ut harm info ben dic)
      "id" (Val.vstr []) = Val.vstr rid := rfl
  rw [hid]
  have hguard : pyStrip (pyStr (Val.vstr rid)) = rid := hrs
  simp only [pyStr] at hguard ⊢
  rw [hguard, if_neg hrne]
  rfl

/-- The composite: rebuilding the id by hand before the second
conversion reproduces an idempotent adapter output exactly. -/
theorem keepId_chat_mk (rid T D : PyStr) (ING PREP : List PyStr) (TP PO DI : PyStr)
    (kvs : List (String × Scalar)) (xs : List Scalar) (HARM : PyStr)
    (hrs : pyStrip rid = rid) (hrne : rid ≠ [])
    (hT : pyUpper (pyStrip T) = T) (hD : pyStrip D = D)
    (hING : split_trim_dedup (pyStrip (joinNl ING)) = ING)
    (hPREP : split_trim_dedup (pyStrip (joinNl PREP)) = PREP)
    (hTP : pyStrip TP = TP) (hPO : pyStrip PO = PO) (hDI : pyStrip DI = DI)
    (hHARM : pyStrip HARM = HARM) :
    to_chat_format (("id", Val.vstr rid) ::
        to_db_format (chat_mk rid T D ING PREP TP PO DI (Val.vdict kvs) (Val.vlist xs) HARM)) =
      some (chat_mk rid T D ING PREP TP PO DI (Val.vdict kvs) (Val.vlist xs) HARM) := by
  rw [to_db_format_chat_mk, to_chat_format_cons_id_db_mk rid _ _ _ _ _ _ _ _ _ _ _ _ hrs hrne,
    hT, hT, hD, hD, hING, hPREP, hTP, hTP, hPO, hPO, hDI, hDI, hHARM, hHARM]

theorem isDictB_iff {v : Val} : isDictB v = true ↔ ∃ kvs, v = Val.vdict kvs := by
  cases v <;> simp [isDictB]

theorem isListB_iff {v : Val} : isListB v = true ↔ ∃ xs, v = Val.vlist xs := by
  cases v <;> simp [isListB]

theorem list_field_output (v : Val) :
    list_field v = [] ∨ ∃ raw, list_field v = split_trim_dedup raw := by
  cases v with
  | vstr raw => exact Or.inr ⟨raw, rfl⟩
  | vnum n => exact Or.inl rfl
  | vnone => exact Or.inl rfl
  | vlist xs => exact Or.inl rfl
  | vdict kvs => exact Or.inl rfl

/-- The id column never survives `to_db_format`: neither its regular
output nor the exception-path empty dict has an `id` key. -/
theorem to_db_format_id_absent (d : PyDict) : lookupVal (to_db_format d) "id" = Option.none := by
  unfold to_db_format
  dsimp only
  split
  · rfl
  · rfl

theorem getD_of_lookup_none {d : PyDict} {k : String} {dflt : Val}
    (h : lookupVal d k = Option.none) : getD d k dflt = dflt := by
  unfold lookupVal at h
  unfold getD
  cases hf : d.find? (fun kv => kv.1 == k) with
  | none => rfl
  | some kv => rw [hf] at h; exact absurd h (by simp)

/-- Converting a record without an id field back to the domain shape
fails: the second leg of the bare round trip is always `none`. -/
theorem to_chat_format_to_db_format (d : PyDict) :
    to_chat_format (to_db_format d) = Option.none := by
  have hid : getD (to_db_format d) "id" (Val.vstr []) = Val.vstr [] :=
    getD_of_lookup_none (to_db_format_id_absent d)
  unfold to_chat_format
  rw [hid]
  rfl

/-- The adapter's unfolding on a record whose id check passes. -/
theorem to_chat_format_eq_raw (x : PyDict)
    (hid : pyStrip (pyStr (getD x "id" (Val.vstr []))) ≠ []) :
    to_chat_format x = some (chat_mk
      (pyStrip (pyStr (getD x "id" (Val.vstr []))))
      (pyUpper (pyStrip (pyStr (getD x "titulo" (Val.vstr [])))))
      (pyStrip (pyStr (getD x "descricao" (Val.vstr []))))
      (list_field (getD x "ingredientes" (Val.vstr [])))
      (list_field (getD x "modo_preparo" (Val.vstr [])))
      (pyStrip (pyStr (getD x "tempo_preparo" (Val.vstr []))))
      (pyStrip (pyStr (getD x "porcoes" (Val.vstr []))))
      (pyStrip (pyStr (getD x "dificuldade" (Val.vstr []))))
      (getD x "informacoes_nutricionais" (Val.vdict []))
      (getD x "dicas" (Val.vlist []))
      (pyStrip (pyStr (getD x "harmonizacao" (Val.vstr []))))) := by
  unfold to_chat_format
  dsimp only
  rw [if_neg hid]

/-- The adapter's unfolding on a record whose id check passes and whose
nutrition/tips fields are structured. -/
theorem to_chat_format_eq (x : PyDict) (hid : pyStrip (pyStr (getD x "id" (Val.vstr []))) ≠ [])
    (kvs : List (String × Scalar)) (hkvs : getD x "informacoes_nutricionais" (Val.vdict []) = Val.vdict kvs)
    (xs : List Scalar) (hxs : getD x "dicas" (Val.vlist []) = Val.vlist xs) :
    to_chat_format x = some (chat_mk
      (pyStrip (pyStr (getD x "id" (Val.vstr []))))
      (pyUpper (pyStrip (pyStr (getD x "titulo" (Val.vstr [])))))
      (pyStrip (pyStr (getD x "descricao" (Val.vstr []))))
      (list_field (getD x "ingredientes" (Val.vstr [])))
      (list_field (getD x "modo_preparo" (Val.vstr [])))
      (pyStrip (pyStr (getD x "tempo_preparo" (Val.vstr []))))
      (pyStrip (pyStr (getD x "porcoes" (Val.vstr []))))
      (pyStrip (pyStr (getD x "dificuldade" (Val.vstr []))))
      (Val.vdict kvs) (Val.vlist xs)
      (pyStrip (pyStr (getD x "harmonizacao" (Val.vstr []))))) := by
  rw [to_chat_format_eq_raw x hid, hkvs, hxs]

/-! ## The claims -/

/-- The bare Domain-Storage-Domain round trip of the spec's idempotent
normalization property. -/
def roundTrip (x : PyDict) : Option PyDict :=
  (to_chat_format x).bind (fun c => to_chat_format (to_db_format c))

/-- The round trip with the id re-attached before the second
Storage-to-Domain conversion. -/
def roundTripKeepId (x : PyDict) : Option PyDict :=
  (to_chat_format x).bind
    (fun c => to_chat_format (("id", getD c "id" Val.vnone) :: to_db_format c))

/-- C1 counterexample: a storage record with a valid id and no title at
all is not rejected by `to_chat_format` — the claim says a record whose
title is empty or missing must map to the no-value sentinel, but the
adapter returns a filled record here. -/
theorem C1_counterexample :
    to_chat_format [("id", Val.vstr (pys "1"))] ≠ Option.none := by decide

/-- C1 (amended): `to_chat_format` rejects a record only for an
empty-after-trimming id; a record whose title trims to empty but whose
id is valid converts to a domain record whose `titulo` field is the
empty string, not to the no-value sentinel. -/
theorem C1_title_not_validated (x : PyDict)
    (hid : pyStrip (pyStr (getD x "id" (Val.vstr []))) ≠ [])
    (htitle : pyUpper (pyStrip (pyStr (getD x "titulo" (Val.vstr [])))) = []) :
    ∃ c, to_chat_format x = some c ∧ getD c "titulo" Val.vnone = Val.vstr [] := by
  refine ⟨_, to_chat_format_eq_raw x hid, ?_⟩
  rw [getD_chat_mk_titulo, htitle]

/-- C1 witness: the amended claim evaluated at the counterexample
record. -/
theorem C1_witness :
    pyStrip (pyStr (getD [("id", Val.vstr (pys "1"))] "id" (Val.vstr []))) ≠ [] ∧
    ∃ c, to_chat_format [("id", Val.vstr (pys "1"))] = some c ∧
      getD c "titulo" Val.vnone = Val.vstr [] :=
  ⟨by decide, C1_title_not_validated [("id", Val.vstr (pys "1"))] (by decide) (by decide)⟩

/-- C2 counterexample: on a well-formed storage record the double
conversion `to_domain(to_storage(to_domain(x)))` is `none`, not
`to_domain(x)` — `to_db_format` drops the id, so the second
`to_chat_format` rejects the record. -/
theorem C2_counterexample :
    roundTrip [("id", Val.vstr (pys "7")), ("titulo", Val.vstr (pys "Bolo")),
        ("ingredientes", Val.vstr (pys "a\nb"))] ≠
      to_chat_format [("id", Val.vstr (pys "7")), ("titulo", Val.vstr (pys "Bolo")),
        ("ingredientes", Val.vstr (pys "a\nb"))] := by decide

/-- C2 (amended): for every well-formed storage record (valid id,
dict-shaped nutrition, list-shaped tips) the bare round trip is `none`
because `to_db_format` drops the id; re-attaching the id before the
second conversion reproduces `to_domain(x)` exactly — the
normalization itself is idempotent. -/
theorem C2_roundtrip (x : PyDict)
    (hid : pyStrip (pyStr (getD x "id" (Val.vstr []))) ≠ [])
    (hinfo : isDictB (getD x "informacoes_nutricionais" (Val.vdict [])) = true)
    (hdicas : isListB (getD x "dicas" (Val.vlist [])) = true) :
    roundTrip x = Option.none ∧ roundTripKeepId x = to_chat_format x := by
  obtain ⟨kvs, hkvs⟩ := isDictB_iff.mp hinfo
  obtain ⟨xs, hxs⟩ := isListB_iff.mp hdicas
  have hx := to_chat_format_eq x hid kvs hkvs xs hxs
  constructor
  · unfold roundTrip
    rw [hx]
    exact to_chat_format_to_db_format _
  · unfold roundTripKeepId
    rw [hx]
    exact keepId_chat_mk _ _ _ _ _ _ _ _ kvs xs _
      (pyStrip_idem _) hid
      (pyUpper_pyStrip_fix _) (pyStrip_idem _)
      (split_trim_roundtrip_of_output (list_field_output _))
      (split_trim_roundtrip_of_output (list_field_output _))
      (pyStrip_idem _) (pyStrip_idem _) (pyStrip_idem _)
      (pyStrip_idem _)

/-- C2 witness: the amended claim evaluated at the counterexample
record. -/
theorem C2_witness :
    (pyStrip (pyStr (getD [("id", Val.vstr (pys "7")), ("titulo", Val.vstr (pys "Bolo")),
        ("ingredientes", Val.vstr (pys "a\nb"))] "id" (Val.vstr []))) ≠ []) ∧
    roundTrip [("id", Val.vstr (pys "7")), ("titulo", Val.vstr (pys "Bolo")),
        ("ingredientes", Val.vstr (pys "a\nb"))] = Option.none ∧
    roundTripKeepId [("id", Val.vstr (pys "7")), ("titulo", Val.vstr (pys "Bolo")),
        ("ingredientes", Val.vstr (pys "a\nb"))] =
      to_chat_format [("id", Val.vstr (pys "7")), ("titulo", Val.vstr (pys "Bolo")),
        ("ingredientes", Val.vstr (pys "a\nb"))] :=
  ⟨by decide,
    (C2_roundtrip [("id", Val.vstr (pys "7")), ("titulo", Val.vstr (pys "Bolo")),
      ("ingredientes", Val.vstr (pys "a\nb"))] (by decide) (by decide) (by decide)).1,
    (C2_roundtrip [("id", Val.vstr (pys "7")), ("titulo", Val.vstr (pys "Bolo")),
      ("ingredientes", Val.vstr (pys "a\nb"))] (by decide) (by decide) (by decide)).2⟩

/-- C10: the storage record produced by `to_db_format` never contains an
`id` field, whatever the domain record held — the identifier is dropped
at the Domain-to-Storage boundary. -/
theorem C10_no_id_in_db_format (d : PyDict) :
    lookupVal (to_db_format d) "id" = Option.none := by
  unfold to_db_format
  dsimp only
  split
  · rfl
  · rfl

theorem length_filterMap_of_isSome {α β : Type} {f : α → Option β} :
    ∀ {l : List α}, (∀ a ∈ l, (f a).isSome = true) → (l.filterMap f).length = l.length
  | [], _ => rfl
  | a :: l, h => by
    cases hf : f a with
    | none =>
      have := h a (List.mem_cons_self a l)
      rw [hf] at this
      exact absurd this (by simp)
    | some b =>
      rw [List.filterMap_cons, hf, List.length_cons, List.length_cons,
        length_filterMap_of_isSome (fun x hx => h x (List.mem_cons_of_mem a hx))]

theorem to_chat_format_isSome {r : PyDict}
    (hid : pyStrip (pyStr (getD r "id" (Val.vstr []))) ≠ []) :
    (to_chat_format r).isSome = true := by
  rw [to_chat_format_eq_raw r hid]
  rfl

/-- C3 counterexample: with a one-record catalog, the free-text search
used by the chat answers the empty query with the empty list, not with
the whole catalog as the claim states. -/
theorem C3_counterexample :
    buscar_receitas_por_texto
        (catalogStore [[("id", Val.vstr (pys "1")), ("titulo", Val.vstr (pys "BOLO"))]]) [] = [] ∧
    ([[("id", Val.vstr (pys "1")), ("titulo", Val.vstr (pys "BOLO"))]] : List PyDict).length = 1 := by
  decide

/-- C3 (amended): on an empty query the title-search `buscar_receitas`
does return the whole catalog, converted one-for-one (no cap is applied),
but the free-text `buscar_receitas_por_texto` returns the empty list
instead. -/
theorem C3_empty_query (catalog : List PyDict)
    (h : ∀ r ∈ catalog, r ≠ [] ∧ pyStrip (pyStr (getD r "id" (Val.vstr []))) ≠ []) :
    (buscar_receitas (catalogStore catalog) []).2.length = catalog.length ∧
    buscar_receitas_por_texto (catalogStore catalog) [] = [] := by
  constructor
  · show ((catalog.filter (fun r => r ≠ [])).filterMap to_chat_format).length = catalog.length
    rw [List.filter_eq_self.mpr (fun r hr => by simpa using (h r hr).1)]
    exact length_filterMap_of_isSome (fun r hr => to_chat_format_isSome (h r hr).2)
  · rfl

/-- C3 witness: the amended claim evaluated on a concrete one-record
catalog. -/
theorem C3_witness :
    (∀ r ∈ [[("id", Val.vstr (pys "1")), ("titulo", Val.vstr (pys "BOLO"))]],
      r ≠ [] ∧ pyStrip (pyStr (getD r "id" (Val.vstr []))) ≠ []) ∧
    (buscar_receitas (catalogStore [[("id", Val.vstr (pys "1")), ("titulo", Val.vstr (pys "BOLO"))]])
      []).2.length = 1 ∧
    buscar_receitas_por_texto
      (catalogStore [[("id", Val.vstr (pys "1")), ("titulo", Val.vstr (pys "BOLO"))]]) [] = [] :=
  ⟨by decide,
    (C3_empty_query [[("id", Val.vstr (pys "1")), ("titulo", Val.vstr (pys "BOLO"))]]
      (by decide)).1,
    (C3_empty_query [[("id", Val.vstr (pys "1")), ("titulo", Val.vstr (pys "BOLO"))]]
      (by decide)).2⟩

/-- C4 counterexample: a catalog whose only record matches the query in
its description alone yields an empty search result — there is no
description-substring stage, contradicting the claimed three-stage
priority. -/
theorem C4_counterexample :
    buscar_receitas_por_texto
        (catalogStore [[("id", Val.vstr (pys "1")), ("titulo", Val.vstr (pys "BOLO")),
          ("ingredientes", Val.vstr (pys "farinha")),
          ("descricao", Val.vstr (pys "uma delicia com quinoa"))]]) (pys "quinoa") = [] ∧
    ilike (pys "uma delicia com quinoa") (clean_search_query (pys "quinoa")) = true := by
  decide

/-- C4 (amended): for a non-empty query the search tries a title
substring match and falls back to an ingredient substring match only
when the title stage returned no rows; a title hit anywhere suppresses
every ingredient-only match, and when the title stage is empty the
result is exactly the converted ingredient hits — the ingredient
matches when there are any, the empty list when both stages are empty —
and there is no description stage. -/
theorem C4_priority (catalog : List PyDict) (q : PyStr) (hq : q ≠ []) :
    (catalog.filter
        (fun r => ilike (pyStr (getD r "titulo" (Val.vstr []))) (clean_search_query q)) ≠ [] →
      buscar_receitas_por_texto (catalogStore catalog) q =
        ((catalog.filter
            (fun r => ilike (pyStr (getD r "titulo" (Val.vstr []))) (clean_search_query q))).filter
          (fun r => r ≠ [])).filterMap to_chat_format) ∧
    (catalog.filter
        (fun r => ilike (pyStr (getD r "titulo" (Val.vstr []))) (clean_search_query q)) = [] →
      buscar_receitas_por_texto (catalogStore catalog) q =
        ((catalog.filter
            (fun r => ilike (pyStr (getD r "ingredientes" (Val.vstr []))) (clean_search_query q))).filter
          (fun r => r ≠ [])).filterMap to_chat_format) := by
  have hunfold : buscar_receitas_por_texto (catalogStore catalog) q =
      (match (if catalog.filter
          (fun r => ilike (pyStr (getD r "titulo" (Val.vstr []))) (clean_search_query q)) = []
        then (catalogStore catalog).selectIlike "ingredientes" (clean_search_query q)
        else Except.ok (catalog.filter
          (fun r => ilike (pyStr (getD r "titulo" (Val.vstr []))) (clean_search_query q)))) with
      | Except.error _ => []
      | Except.ok rows => (rows.filter (fun r => r ≠ [])).filterMap to_chat_format) := by
    unfold buscar_receitas_por_texto
    rw [if_neg hq]
    rfl
  constructor
  · intro htitle
    rw [hunfold, if_neg htitle]
  · intro htitle
    rw [hunfold, if_pos htitle]
    rfl

/-- The two-record demo catalog for the search-priority claim: the query
"cenoura" matches the first record's title and the second record's
ingredients. -/
def catC4 : List PyDict :=
  [[("id", Val.vstr (pys "1")), ("titulo", Val.vstr (pys "BOLO DE CENOURA")),
    ("ingredientes", Val.vstr (pys "farinha"))],
   [("id", Val.vstr (pys "2")), ("titulo", Val.vstr (pys "TORTA")),
    ("ingredientes", Val.vstr (pys "cenoura ralada"))]]

/-- C4 witness: the amended claim on the demo catalog, in both regimes —
for "cenoura" the title hit alone is returned and the ingredient-only
match is suppressed; for "ralada" (which no title contains) the search
falls back to the ingredient stage and returns its hits. -/
theorem C4_witness :
    ((pys "cenoura" ≠ []) ∧
      catC4.filter
        (fun r => ilike (pyStr (getD r "titulo" (Val.vstr [])))
          (clean_search_query (pys "cenoura"))) ≠ []) ∧
    buscar_receitas_por_texto (catalogStore catC4) (pys "cenoura") =
      ((catC4.filter
          (fun r => ilike (pyStr (getD r "titulo" (Val.vstr [])))
            (clean_search_query (pys "cenoura")))).filter
        (fun r => r ≠ [])).filterMap to_chat_format ∧
    ((pys "ralada" ≠ []) ∧
      catC4.filter
        (fun r => ilike (pyStr (getD r "titulo" (Val.vstr [])))
          (clean_search_query (pys "ralada"))) = [] ∧
      catC4.filter
        (fun r => ilike (pyStr (getD r "ingredientes" (Val.vstr [])))
          (clean_search_query (pys "ralada"))) ≠ []) ∧
    buscar_receitas_por_texto (catalogStore catC4) (pys "ralada") =
      ((catC4.filter
          (fun r => ilike (pyStr (getD r "ingredientes" (Val.vstr [])))
            (clean_search_query (pys "ralada")))).filter
        (fun r => r ≠ [])).filterMap to_chat_format :=
  ⟨⟨by decide, by decide⟩,
    (C4_priority catC4 (pys "cenoura") (by decide)).1 (by decide),
    ⟨by decide, by decide, by decide⟩,
    (C4_priority catC4 (pys "ralada") (by decide)).2 (by decide)⟩

/-- C5: against a store whose every round trip raises, the decorated
`buscar_receitas` makes exactly ONE attempt and returns `[]`: the body's
catch-all `except` swallows the exception before the tenacity decorator
can see it, so the decorator's three attempts never happen.  The second
conjunct shows the modelled retry loop does make 3 attempts when the
wrapped callable itself raises — the dead decorator, not the model, is
why the count is 1. -/
theorem C5_retry_swallowed :
    buscar_receitas failingStore (pys "bolo") = (1, []) ∧
    tenacity_retry 3
        (fun _ => (Except.error "connection refused" : Except String (List PyDict))) =
      (3, Except.error "connection refused") :=
  ⟨rfl, rfl⟩

/-- C6: on input with at least one token after punctuation removal, all
of whose tokens are stop words, `clean_search_query` falls back to the
normalized-but-unfiltered query and never returns the empty string. -/
theorem C6_stop_word_fallback (t : PyStr)
    (hw : pySplitWhite (normalize_text (stripPunct t)) ≠ [])
    (hall : ∀ w ∈ pySplitWhite (normalize_text (stripPunct t)), w ∈ stop_words) :
    clean_search_query t = normalize_text (stripPunct t) ∧ clean_search_query t ≠ [] := by
  have hfilter : (pySplitWhite (normalize_text (stripPunct t))).filter
      (fun w => ¬ stop_words.contains w) = [] := by
    rw [List.filter_eq_nil_iff]
    intro w hwmem
    simp [hall w hwmem]
  have hcq : clean_search_query t = normalize_text (stripPunct t) := by
    unfold clean_search_query
    dsimp only
    rw [hfilter]
    rfl
  refine ⟨hcq, ?_⟩
  rw [hcq]
  intro hemp
  apply hw
  rw [hemp]
  rfl

/-- C6 witness: the spec's example — `clean_query("o que")` equals the
normalized query and is non-empty. -/
theorem C6_witness :
    clean_search_query (pys "o que") = normalize_text (pys "o que") ∧
    clean_search_query (pys "o que") ≠ [] := by
  have h := C6_stop_word_fallback (pys "o que") (by decide) (by decide)
  have hsp : stripPunct (pys "o que") = pys "o que" := by decide
  rw [hsp] at h
  exact h

/-- The demo record for the summary claim: three non-empty ingredients
and a trailing newline. -/
def recC7 : PyDict :=
  [("id", Val.vstr (pys "1")), ("titulo", Val.vstr (pys "T")),
   ("ingredientes", Val.vstr (pys "a\nb\nc\n"))]

/-- C7 counterexample: the record has exactly 3 (non-empty) ingredients,
yet the preview carries the ellipsis marker, because the append
condition counts raw newline segments (4 here, with the trailing blank)
rather than ingredients. -/
theorem C7_counterexample :
    (criar_resumo_receita recC7).map (fun s => getD s "preview_ingredientes" Val.vnone) =
      some (Val.vlist [Scalar.s (pys "a"), Scalar.s (pys "b"), Scalar.s (pys "c"),
        Scalar.s (pys "...")]) ∧
    (((splitNl (pys "a\nb\nc\n")).map pyStrip).filter (fun w => w ≠ [])).length = 3 := by
  decide

/-- C7 (amended): for a record passing the id and title checks whose
ingredients field is a string, the preview is the first 3 trimmed
non-empty lines, with the literal ellipsis marker appended exactly when
the raw newline-split segment count (blank segments included) exceeds
3 — not when the number of ingredients does. -/
theorem C7_preview (receita : PyDict) (raw : PyStr)
    (hid : isFalsy (getD receita "id" Val.vnone) = false)
    (htit : pyUpper (pyStrip (pyStr (getD receita "titulo" (Val.vstr [])))) ≠ [])
    (hing : getD receita "ingredientes" (Val.vstr []) = Val.vstr raw) :
    ∃ s, criar_resumo_receita receita = some s ∧
      getD s "preview_ingredientes" Val.vnone = Val.vlist
        ((((((splitNl raw).map pyStrip).filter (fun w => w ≠ [])).take 3) ++
          (if 3 < (splitNl raw).length then [pys "..."] else [])).map Scalar.s) := by
  unfold criar_resumo_receita
  dsimp only
  rw [hid]
  rw [if_neg (by simp)]
  rw [if_neg htit, hing]
  refine ⟨_, rfl, ?_⟩
  show Val.vlist ((if 3 < (splitNl raw).length
      then ((((splitNl raw).map pyStrip).filter (fun w => w ≠ [])).take 3) ++ [pys "..."]
      else (((splitNl raw).map pyStrip).filter (fun w => w ≠ [])).take 3).map Scalar.s) = _
  by_cases hlen : 3 < (splitNl raw).length
  · rw [if_pos hlen, if_pos hlen]
  · rw [if_neg hlen, if_neg hlen, List.append_nil]

/-- C7 witness: the amended claim evaluated at the demo record. -/
theorem C7_witness :
    (isFalsy (getD recC7 "id" Val.vnone) = false ∧
      pyUpper (pyStrip (pyStr (getD recC7 "titulo" (Val.vstr [])))) ≠ [] ∧
      getD recC7 "ingredientes" (Val.vstr []) = Val.vstr (pys "a\nb\nc\n")) ∧
    ∃ s, criar_resumo_receita recC7 = some s ∧
      getD s "preview_ingredientes" Val.vnone = Val.vlist
        ((((((splitNl (pys "a\nb\nc\n")).map pyStrip).filter (fun w => w ≠ [])).take 3) ++
          (if 3 < (splitNl (pys "a\nb\nc\n")).length then [pys "..."] else [])).map Scalar.s) :=
  ⟨⟨by decide, by decide, by decide⟩,
    C7_preview recC7 (pys "a\nb\nc\n") (by decide) (by decide) (by decide)⟩

/-- C8 counterexample: a malformed nutrition string is passed through
verbatim (not replaced by the zero-filled record), and an absent
nutrition field becomes the empty dict (not the five-field zero
record). -/
theorem C8_counterexample :
    (to_chat_format [("id", Val.vstr (pys "1")),
        ("informacoes_nutricionais", Val.vstr (pys "not json"))]).map
      (fun c => getD c "informacoes_nutricionais" Val.vnone) =
        some (Val.vstr (pys "not json")) ∧
    (to_chat_format [("id", Val.vstr (pys "1"))]).map
      (fun c => getD c "informacoes_nutricionais" Val.vnone) = some (Val.vdict []) ∧
    Val.vstr (pys "not json") ≠ Val.vdict info_nutri_default ∧
    Val.vdict [] ≠ Val.vdict info_nutri_default := by
  decide

/-- C8 (amended): for every record passing the id check,
`to_chat_format` copies the stored nutrition value through unchanged
(defaulting to the empty dict when absent); no JSON parsing, validation
or zero-filling happens, and the conversion never raises. -/
theorem C8_nutrition_passthrough (x : PyDict)
    (hid : pyStrip (pyStr (getD x "id" (Val.vstr []))) ≠ []) :
    (to_chat_format x).map (fun c => getD c "informacoes_nutricionais" Val.vnone) =
      some (getD x "informacoes_nutricionais" (Val.vdict [])) := by
  rw [to_chat_format_eq_raw x hid]
  rfl

/-- C8 witness: the amended claim evaluated at the malformed-nutrition
record. -/
theorem C8_witness :
    (pyStrip (pyStr (getD [("id", Val.vstr (pys "1")),
        ("informacoes_nutricionais", Val.vstr (pys "not json"))] "id" (Val.vstr []))) ≠ []) ∧
    (to_chat_format [("id", Val.vstr (pys "1")),
        ("informacoes_nutricionais", Val.vstr (pys "not json"))]).map
      (fun c => getD c "informacoes_nutricionais" Val.vnone) =
        some (getD [("id", Val.vstr (pys "1")),
          ("informacoes_nutricionais", Val.vstr (pys "not json"))]
          "informacoes_nutricionais" (Val.vdict [])) :=
  ⟨by decide,
    C8_nutrition_passthrough [("id", Val.vstr (pys "1")),
      ("informacoes_nutricionais", Val.vstr (pys "not json"))] (by decide)⟩

/-- C9 counterexample: "Bolo" and "bolo " normalize to the same string,
yet each occupies its own cache entry — the second call runs the
underlying search again, so the cache is not keyed by the normalized
query. -/
theorem C9_counterexample :
    (buscar_receitas_cached (fun q => q.length) 0 (pys "Bolo") []).2.2 = true ∧
    (buscar_receitas_cached (fun q => q.length) 1 (pys "bolo ")
      (buscar_receitas_cached (fun q => q.length) 0 (pys "Bolo") []).2.1).2.2 = true ∧
    normalize_text (pys "Bolo") = normalize_text (pys "bolo ") := by
  decide

/-- C9 (amended): the cache is keyed by the raw query string: the first
call with a query computes, and a second call with the identical raw
string within the 3600-second TTL is served from the cache without
invoking the underlying search. -/
theorem C9_raw_key_ttl {α : Type} (compute : PyStr → α) (q : PyStr) (t1 t2 : Nat)
    (httl : t2 - t1 < 3600) :
    (buscar_receitas_cached compute t1 q []).2.2 = true ∧
    (buscar_receitas_cached compute t2 q
      (buscar_receitas_cached compute t1 q []).2.1).2.2 = false := by
  constructor
  · rfl
  · show (buscar_receitas_cached compute t2 q [⟨q, t1, compute q⟩]).2.2 = false
    unfold buscar_receitas_cached
    have hget : cache_get 3600 t2 q [⟨q, t1, compute q⟩] = some (compute q) := by
      unfold cache_get
      have hfind : List.find? (fun e => e.key == q)
          [(⟨q, t1, compute q⟩ : CacheEntry α)] = some ⟨q, t1, compute q⟩ := by
        simp [List.find?]
      rw [hfind]
      show (if t2 - t1 < 3600 then some (compute q) else Option.none) = some (compute q)
      rw [if_pos httl]
    rw [hget]

/-- C9 witness: the amended claim evaluated at a concrete query and
timestamps inside the TTL window. -/
theorem C9_witness :
    ((1 : Nat) - 0 < 3600) ∧
    (buscar_receitas_cached (fun _ => (0 : Nat)) 0 (pys "bolo") []).2.2 = true ∧
    (buscar_receitas_cached (fun _ => (0 : Nat)) 1 (pys "bolo")
      (buscar_receitas_cached (fun _ => (0 : Nat)) 0 (pys "bolo") []).2.1).2.2 = false :=
  ⟨by decide,
    (C9_raw_key_ttl (fun _ => (0 : Nat)) (pys "bolo") 0 1 (by decide)).1,
    (C9_raw_key_ttl (fun _ => (0 : Nat)) (pys "bolo") 0 1 (by decide)).2⟩

end Receitas
